import Mathlib

/-!
Verification development for the SwapCred exchange-for-store-credit backend.

The definitions below are a shallow embedding of the JavaScript source:

* routes/upload.js : admin routes (set-status, set-transit, assign-credit,
  warehouse CRUD);
* the owner-facing exchange router (create, list, get, generic update,
  submit-shipping, cancel);
* utils/shopify.js : updateCustomerLoyaltyPoints (the external ledger write).

Modelling conventions:

* JavaScript numbers carried by request payloads are modelled as
  `Option Fraction` (`none` stands for a value whose `Number` conversion is
  NaN); `Math.round` is modelled by `jsRound`.
* JavaScript string truthiness (empty string is falsy) is modelled by
  `optTruthy` on `Option String`; an absent field is `none`.
* `new Date(s)` applied to a request-supplied date string is modelled by the
  injective wrapper `JsDate.mk`, and clock reads (`new Date()`,
  `serverTimestamp`) by a `now : Nat` parameter.
* Each HTTP handler becomes a pure function returning `Except Err _`.
  Every early `return res.status(4xx/5xx)` in the source happens before the
  Firestore `update`/`delete` call, so an `Except.error` result models a
  request that leaves the stores unchanged.  Error constructors follow the
  taxonomy of the specification: state-machine guard failures are
  `Err.conflict`, malformed or missing input is `Err.validation`, missing
  documents are `Err.notFound`, ownership and admin failures are
  `Err.forbidden`, and external-service failures reported as HTTP 500 are
  `Err.internal`.
* External-service failures (Shopify lookup or metafield write throwing) are
  injected through explicit `lookupFails` / `writeFails` flags.
-/

namespace SwapCred

/-- Overall request status values stored in the `status` field. -/
inductive Status where
  | pending
  | approved
  | declined
  | completed
deriving DecidableEq, Repr

/-- Transit status values; the stored field is `Option Transit`, with `none`
modelling the JavaScript `null`. -/
inductive Transit where
  | shipping
  | received
  | completed
deriving DecidableEq, Repr

/-- Status values accepted by the admin status route after its membership
check on the request body (approved, declined or completed). -/
inductive StatusReq where
  | approved
  | declined
  | completed
deriving DecidableEq, Repr

/-- Result of `new Date(s)` on a request-supplied date string, modelled as
an injective wrapper around the raw string. -/
structure JsDate where
  raw : String
deriving DecidableEq, Repr

/-- Shipping details object built by the submit-shipping handler and also
acceptable verbatim through the generic owner update. -/
structure ShippingDetails where
  carrierName : String
  trackingNumber : String
  shippingDate : JsDate
  address : String
  notes : String
  submittedAt : Nat
deriving DecidableEq, Repr

/-- Snapshot of a warehouse stored on the exchange request at approval. -/
structure WarehouseInfo where
  name : String
  addressLine1 : String
  addressLine2 : String
  city : String
  state : String
  postalCode : String
  country : String
  contactPerson : String
  contactPhone : String
deriving DecidableEq, Repr

/-- Warehouse document as created by the warehouse routes (the create route
fills every field, defaulting the optional ones to the empty string). -/
structure Warehouse where
  name : String
  addressLine1 : String
  addressLine2 : String
  city : String
  state : String
  postalCode : String
  country : String
  contactPerson : String
  contactPhone : String
  isActive : Bool
  createdAt : Nat
  updatedAt : Nat
deriving DecidableEq, Repr

/-- Exchange request document. -/
structure ExchangeRequest where
  userId : String
  userEmail : String
  productName : String
  description : String
  brand : String
  condition : String
  images : List String
  status : Status
  transitStatus : Option Transit
  creditAmount : Int
  totalLoyaltyPoints : Int
  adminFeedback : String
  shippingDetails : Option ShippingDetails
  warehouseId : Option String
  warehouseInfo : Option WarehouseInfo
  feedback : String
  loyaltyPointsSuccess : Option Bool
  creditCurrency : Option String
  shopifyCustomerId : Option String
  creditAssignedBy : Option String
  creditAssignedAt : Option Nat
  createdAt : Nat
  updatedAt : Nat
deriving DecidableEq, Repr

/-- Credit history document appended by the assign-credit route. -/
structure CreditHistoryEntry where
  userId : String
  exchangeRequestId : String
  amount : Int
  currency : String
  type : String
  assignedBy : String
  loyaltyPointsSuccess : Bool
  shopifyCustomerId : String
  totalLoyaltyPoints : Int
  createdAt : Nat
deriving DecidableEq, Repr

/-- Error taxonomy of the specification, tagged with the response message. -/
inductive Err where
  | validation : String → Err
  | conflict : String → Err
  | notFound : String → Err
  | forbidden : String → Err
  | internal : String → Err
deriving DecidableEq, Repr

/-- True when the result is any error (the handler returned before writing). -/
def isErr {α : Type} : Except Err α → Bool
  | .error _ => true
  | .ok _ => false

/-- True when the result is a validation error. -/
def isValidation {α : Type} : Except Err α → Bool
  | .error (.validation _) => true
  | _ => false

/-- True when the result is a state-machine conflict error. -/
def isConflict {α : Type} : Except Err α → Bool
  | .error (.conflict _) => true
  | _ => false

/-- True when the result is a not-found error. -/
def isNotFound {α : Type} : Except Err α → Bool
  | .error (.notFound _) => true
  | _ => false

/-- True when the result is a forbidden error. -/
def isForbidden {α : Type} : Except Err α → Bool
  | .error (.forbidden _) => true
  | _ => false

/-- True when the result is an internal (HTTP 500) error. -/
def isInternal {α : Type} : Except Err α → Bool
  | .error (.internal _) => true
  | _ => false

/-- JavaScript truthiness of an optional string field: present and not the
empty string. -/
def optTruthy : Option String → Bool
  | none => false
  | some s => s ≠ ""

/-- JavaScript number carried by a request payload, modelled as an exact
fraction num over den with den positive; NaN is modelled by wrapping in
Option at the use sites. -/
structure Fraction where
  num : Int
  den : Nat
deriving DecidableEq, Repr

/-- Embedding of the integer n as a fraction. -/
def Fraction.ofInt (n : Int) : Fraction := ⟨n, 1⟩

/-- JavaScript `Math.round` on a (non-NaN) number: round half toward
positive infinity, that is the floor of the number plus one half, computed
here by Euclidean division (exact because den is positive). -/
def jsRound (f : Fraction) : Int := (2 * f.num + f.den) / (2 * (f.den : Int))

/-- Appending admin feedback: the source computes
oldFeedback + newline + extra, then trims the result. -/
def appendFeedback (old extra : String) : String :=
  (old ++ "\n" ++ extra).trim

/-- Warehouse snapshot stored on the exchange request at approval: a copy
of the address and contact fields of the warehouse document (the optional
fields were already defaulted to the empty string at creation, so the
or-empty defaulting in the source is the identity here). -/
def snapshotOf (w : Warehouse) : WarehouseInfo :=
  { name := w.name
    addressLine1 := w.addressLine1
    addressLine2 := w.addressLine2
    city := w.city
    state := w.state
    postalCode := w.postalCode
    country := w.country
    contactPerson := w.contactPerson
    contactPhone := w.contactPhone }

/-- Admin status route (PUT exchange-requests/:id/status in
routes/upload.js): validates the requested status against the current one
(only the approved and completed requests are guarded; declined has no
guard), requires a truthy warehouseId on approval (the source checks JS
falsiness, so an absent id and the empty string are both rejected),
appends feedback, snapshots the warehouse on approval, and forces
transitStatus to completed when completing. -/
def setStatus (ex : ExchangeRequest) (req : StatusReq) (fb : Option String)
    (warehouseId : Option String) (whs : String → Option Warehouse)
    (now : Nat) : Except Err ExchangeRequest :=
  if req = .approved ∧ ex.status ≠ .pending then
    .error (.conflict "can only approve pending exchange requests")
  else if req = .completed ∧ ex.status ≠ .approved then
    .error (.conflict "can only complete approved exchange requests")
  else if req = .completed ∧ ex.creditAmount ≤ 0 then
    .error (.conflict "cannot complete exchange request without assigning credit")
  else if req = .approved ∧ optTruthy warehouseId = false then
    .error (.validation "warehouse selection is required for approval")
  else
    let newFeedback :=
      if optTruthy fb then appendFeedback ex.adminFeedback (fb.getD "")
      else ex.adminFeedback
    match req with
    | .approved =>
      match warehouseId with
      | none => .error (.validation "warehouse selection is required for approval")
      | some wid =>
        match whs wid with
        | none => .error (.notFound "selected warehouse not found")
        | some w =>
          .ok { ex with
            status := .approved
            adminFeedback := newFeedback
            updatedAt := now
            warehouseId := some wid
            warehouseInfo := some (snapshotOf w) }
    | .declined =>
      .ok { ex with status := .declined, adminFeedback := newFeedback, updatedAt := now }
    | .completed =>
      .ok { ex with
            status := .completed
            adminFeedback := newFeedback
            transitStatus := some .completed
            updatedAt := now }

/-- Admin transit route (PUT exchange-requests/:id/transit in
routes/upload.js): requires an approved request, shipping details before
received, and an assigned credit before completed; completing the transit
also completes the overall status. -/
def setTransit (ex : ExchangeRequest) (req : Transit) (adminNote : Option String)
    (now : Nat) : Except Err ExchangeRequest :=
  if ex.status ≠ .approved then
    .error (.conflict "can only update transit status for approved exchange requests")
  else if req = .received ∧ ex.shippingDetails = none then
    .error (.validation "cannot mark as received without shipping details")
  else if req = .received ∧ ex.transitStatus ≠ some .shipping ∧ ex.shippingDetails = none then
    .error (.validation "item must have shipping details before it can be received")
  else if req = .completed ∧ ex.creditAmount ≤ 0 then
    .error (.conflict "cannot complete exchange without assigning credit")
  else
    let newFeedback :=
      if optTruthy adminNote then appendFeedback ex.adminFeedback (adminNote.getD "")
      else ex.adminFeedback
    let base := { ex with
                  transitStatus := some req
                  adminFeedback := newFeedback
                  updatedAt := now }
    .ok (if req = .completed then { base with status := .completed } else base)

/-- External ledger state: customer lookup by email and the loyalty-points
metafield per customer id (none models a customer without the metafield). -/
structure Ledger where
  customers : String → Option String
  points : String → Option Int

/-- Ledger write of utils/shopify.js updateCustomerLoyaltyPoints: reads the
current metafield value (defaulting to zero when absent), adds the points,
writes the sum back as the new metafield value, and returns it. -/
def updateLoyaltyPoints (led : Ledger) (cid : String) (pts : Int) :
    Ledger × Int :=
  let current := (led.points cid).getD 0
  let newTotal := current + pts
  ({ led with points := fun c => if c = cid then some newTotal else led.points c },
   newTotal)

/-- Admin credit route (PUT exchange-requests/:id/credit in
routes/upload.js): rounds the requested amount, rejects non-positive or
NaN amounts, requires approved plus received, finds the ledger customer,
performs the additive ledger write, then records the credit on the entity
and appends one credit history document.  A ledger write failure makes the
handler return HTTP 500 before any local write. -/
def assignCredit (ex : ExchangeRequest) (exId : String) (amount : Option Fraction)
    (fb : Option String) (adminUid : String) (led : Ledger)
    (hist : List CreditHistoryEntry) (lookupFails writeFails : Bool)
    (now : Nat) : Except Err (ExchangeRequest × Ledger × List CreditHistoryEntry) :=
  match amount with
  | none => .error (.validation "invalid loyalty points amount")
  | some q =>
    let n := jsRound q
    if n ≤ 0 then .error (.validation "invalid loyalty points amount")
    else if ex.status ≠ .approved ∨ ex.transitStatus ≠ some .received then
      .error (.conflict "credit can only be assigned to approved and received exchange requests")
    else if lookupFails then
      .error (.internal "failed to find customer in Shopify")
    else
      match led.customers ex.userEmail with
      | none => .error (.notFound "customer not found in Shopify")
      | some cid =>
        if writeFails then
          .error (.internal "failed to update loyalty points in Shopify")
        else
          let written := updateLoyaltyPoints led cid n
          let ex2 := { ex with
            creditAmount := n
            totalLoyaltyPoints := written.2
            creditAssignedAt := some now
            creditAssignedBy := some adminUid
            feedback := fb.getD ""
            loyaltyPointsSuccess := some true
            creditCurrency := some "INR"
            shopifyCustomerId := some cid }
          let entry : CreditHistoryEntry := {
            userId := ex.userId
            exchangeRequestId := exId
            amount := n
            currency := "INR"
            type := "exchange_credit"
            assignedBy := adminUid
            loyaltyPointsSuccess := true
            shopifyCustomerId := cid
            totalLoyaltyPoints := written.2
            createdAt := now }
          .ok (ex2, written.1, hist ++ [entry])

/-- Owner shipping route (POST exchange/:id/shipping in the owner router):
validates the three required fields, checks ownership, requires an approved
request, then stores the shipping details and sets transitStatus to
shipping. -/
def submitShipping (ex : ExchangeRequest) (uid : String)
    (carrierName trackingNumber shippingDate address notes : Option String)
    (now : Nat) : Except Err ExchangeRequest :=
  if optTruthy carrierName = false ∨ optTruthy trackingNumber = false ∨
      optTruthy shippingDate = false then
    .error (.validation "missing required shipping details")
  else if ex.userId ≠ uid then
    .error (.forbidden "not authorized to update this exchange request")
  else if ex.status ≠ .approved then
    .error (.conflict "can only add shipping details to approved exchange requests")
  else
    let sd : ShippingDetails := {
      carrierName := carrierName.getD ""
      trackingNumber := trackingNumber.getD ""
      shippingDate := ⟨shippingDate.getD ""⟩
      address := address.getD ""
      notes := notes.getD ""
      submittedAt := now }
    .ok { ex with
          shippingDetails := some sd
          transitStatus := some .shipping
          updatedAt := now }

/-- Owner cancel route (DELETE exchange/:id in the owner router): checks
ownership, then requires a pending request; success deletes the entity. -/
def cancel (ex : ExchangeRequest) (uid : String) : Except Err Unit :=
  if ex.userId ≠ uid then
    .error (.forbidden "not authorized to delete this exchange request")
  else if ex.status ≠ .pending then
    .error (.conflict "cannot cancel exchange request once it has been processed")
  else .ok ()

/-- Update payload of the generic owner route (PUT exchange/:id).  The body
is arbitrary JSON; the fields the handler inspects or protects are modelled
explicitly, with none standing for an absent key. -/
structure UpdatePayload where
  status : Option Status := none
  creditAmount : Option Int := none
  adminFeedback : Option String := none
  userId : Option String := none
  userEmail : Option String := none
  transitStatus : Option (Option Transit) := none
  shippingDetails : Option ShippingDetails := none
  productName : Option String := none
  description : Option String := none
  brand : Option String := none
  condition : Option String := none
  images : Option (List String) := none
deriving DecidableEq, Repr

/-- Generic owner update route (PUT exchange/:id in the owner router):
checks ownership, forbids adding shipping details to a request that is not
approved, deletes the protected keys (status, creditAmount, adminFeedback,
userId, userEmail, transitStatus) from the payload, merges the rest, and
sets transitStatus to shipping when shipping details are included. -/
def ownerUpdate (ex : ExchangeRequest) (uid : String) (p : UpdatePayload)
    (now : Nat) : Except Err ExchangeRequest :=
  if ex.userId ≠ uid then
    .error (.forbidden "not authorized to update this exchange request")
  else if p.shippingDetails.isSome ∧ ex.status ≠ .approved then
    .error (.conflict "cannot add shipping details to a request that is not approved")
  else
    let merged := { ex with
      productName := p.productName.getD ex.productName
      description := p.description.getD ex.description
      brand := p.brand.getD ex.brand
      condition := p.condition.getD ex.condition
      images := p.images.getD ex.images
      shippingDetails := match p.shippingDetails with
        | some sd => some sd
        | none => ex.shippingDetails
      updatedAt := now }
    .ok (if p.shippingDetails.isSome then { merged with transitStatus := some .shipping }
         else merged)

/-- Update payload of the warehouse update route; the handler merges the
supplied fields over the stored document. -/
structure WarehousePatch where
  name : Option String := none
  addressLine1 : Option String := none
  addressLine2 : Option String := none
  city : Option String := none
  state : Option String := none
  postalCode : Option String := none
  country : Option String := none
  contactPerson : Option String := none
  contactPhone : Option String := none
  isActive : Option Bool := none
deriving DecidableEq, Repr

/-- Merge of a warehouse update payload over the stored document, with the
updatedAt refresh of the handler. -/
def applyWarehousePatch (w : Warehouse) (p : WarehousePatch) (now : Nat) :
    Warehouse :=
  { name := p.name.getD w.name
    addressLine1 := p.addressLine1.getD w.addressLine1
    addressLine2 := p.addressLine2.getD w.addressLine2
    city := p.city.getD w.city
    state := p.state.getD w.state
    postalCode := p.postalCode.getD w.postalCode
    country := p.country.getD w.country
    contactPerson := p.contactPerson.getD w.contactPerson
    contactPhone := p.contactPhone.getD w.contactPhone
    isActive := p.isActive.getD w.isActive
    createdAt := w.createdAt
    updatedAt := now }

/-- Combined document-store state: the exchange_requests and warehouses
collections, each keyed by document id. -/
structure System where
  exchanges : String → Option ExchangeRequest
  warehouses : String → Option Warehouse

/-- Store write of one exchange request document. -/
def putExchange (sys : System) (exId : String) (ex : ExchangeRequest) : System :=
  { sys with exchanges := fun i => if i = exId then some ex else sys.exchanges i }

/-- Admin status route at the store level, including the missing-document
check of the handler. -/
def sysSetStatus (sys : System) (exId : String) (req : StatusReq)
    (fb whId : Option String) (now : Nat) : Except Err System :=
  match sys.exchanges exId with
  | none => .error (.notFound "exchange request not found")
  | some ex => (setStatus ex req fb whId sys.warehouses now).map (putExchange sys exId)

/-- Warehouse update route (PUT admin/warehouses/:id): merges the payload
over the stored warehouse document; it never touches exchange requests. -/
def sysWarehouseUpdate (sys : System) (wid : String) (p : WarehousePatch)
    (now : Nat) : Except Err System :=
  match sys.warehouses wid with
  | none => .error (.notFound "warehouse not found")
  | some w =>
    .ok { sys with warehouses := fun i =>
            if i = wid then some (applyWarehousePatch w p now) else sys.warehouses i }

/-- Warehouse delete route (DELETE admin/warehouses/:id); it never touches
exchange requests. -/
def sysWarehouseDelete (sys : System) (wid : String) : Except Err System :=
  match sys.warehouses wid with
  | none => .error (.notFound "warehouse not found")
  | some _ =>
    .ok { sys with warehouses := fun i => if i = wid then none else sys.warehouses i }

/-- Owner cancel route at the store level: success deletes the document. -/
def sysCancel (sys : System) (exId uid : String) : Except Err System :=
  match sys.exchanges exId with
  | none => .error (.notFound "exchange request not found")
  | some ex =>
    (cancel ex uid).map fun _ =>
      { sys with exchanges := fun i => if i = exId then none else sys.exchanges i }

/-- Descending createdAt comparator of the list-by-owner routes: a may come
before b exactly when the JS comparator b.createdAt - a.createdAt is not
positive. -/
def createdDesc (a b : ExchangeRequest) : Prop := b.createdAt ≤ a.createdAt

instance : DecidableRel createdDesc := fun a b => Nat.decLe b.createdAt a.createdAt

instance : IsTotal ExchangeRequest createdDesc :=
  ⟨fun a b => Nat.le_total b.createdAt a.createdAt⟩

instance : IsTrans ExchangeRequest createdDesc :=
  ⟨fun _ _ _ h1 h2 => Nat.le_trans h2 h1⟩

/-- Ownership filter of the list-by-owner query. -/
def matchesOwner (uid : String) (e : ExchangeRequest) : Bool := e.userId == uid

/-- Client-side fallback sort of the list-by-owner route.  ECMAScript
Array.prototype.sort is stable, and a stable sort by a consistent
comparator has a unique result, realised here by insertion sort with the
non-strict descending comparator. -/
def clientSort (l : List ExchangeRequest) : List ExchangeRequest :=
  List.insertionSort createdDesc l

/-- Contract of the indexed (order-by) query path: some permutation of the
matching documents that is sorted by createdAt descending; the backing
store does not further specify the order of ties. -/
def indexedResult (uid : String) (docs out : List ExchangeRequest) : Prop :=
  out.Perm (docs.filter (matchesOwner uid)) ∧ List.Sorted createdDesc out

/-- Baseline pending exchange request used by the concrete witnesses. -/
def exBase : ExchangeRequest :=
  { userId := "user1"
    userEmail := "user1@shop.test"
    productName := "Shoe"
    description := "Lightly used shoe"
    brand := "Acme"
    condition := "good"
    images := []
    status := .pending
    transitStatus := none
    creditAmount := 0
    totalLoyaltyPoints := 0
    adminFeedback := ""
    shippingDetails := none
    warehouseId := none
    warehouseInfo := none
    feedback := ""
    loyaltyPointsSuccess := none
    creditCurrency := none
    shopifyCustomerId := none
    creditAssignedBy := none
    creditAssignedAt := none
    createdAt := 10
    updatedAt := 10 }

/-- Concrete shipping details fixture. -/
def sdBase : ShippingDetails :=
  { carrierName := "DHL"
    trackingNumber := "TRK1"
    shippingDate := ⟨"2024-01-02"⟩
    address := "12 Lane"
    notes := ""
    submittedAt := 11 }

/-- Completed exchange request (credit already assigned), a terminal
state. -/
def exCompleted : ExchangeRequest :=
  { exBase with
    status := .completed
    transitStatus := some .completed
    creditAmount := 500
    totalLoyaltyPoints := 3500
    shippingDetails := some sdBase }

/-- Declined exchange request, a terminal state. -/
def exDeclined : ExchangeRequest :=
  { exBase with status := .declined }

/-- Approved exchange request without shipping details. -/
def exApproved : ExchangeRequest :=
  { exBase with status := .approved }

/-- Approved exchange request whose item was received, eligible for credit
assignment. -/
def exReceived : ExchangeRequest :=
  { exBase with
    status := .approved
    transitStatus := some .received
    shippingDetails := some sdBase }

/-- Concrete ledger fixture: one customer with a 3000 point balance. -/
def ledBase : Ledger :=
  { customers := fun e => if e = "user1@shop.test" then some "cust1" else none
    points := fun c => if c = "cust1" then some 3000 else none }

/-- Concrete warehouse fixture. -/
def whBase : Warehouse :=
  { name := "Main"
    addressLine1 := "1 Dock Rd"
    addressLine2 := ""
    city := "Pune"
    state := "MH"
    postalCode := "411001"
    country := "IN"
    contactPerson := "Ravi"
    contactPhone := "99"
    isActive := true
    createdAt := 1
    updatedAt := 1 }

/-- Warehouse store holding only the fixture under id w1. -/
def whsBase : String → Option Warehouse :=
  fun i => if i = "w1" then some whBase else none

/-- Projection to the full entity of a successful handler result. -/
def okEntity : Except Err ExchangeRequest → Option ExchangeRequest
  | .ok e => some e
  | .error _ => none

/-- Projection to the status field of a successful handler result. -/
def okStatus : Except Err ExchangeRequest → Option Status
  | .ok e => some e.status
  | .error _ => none

/-- Projection to the creditAmount of a successful credit assignment. -/
def okCreditAmount :
    Except Err (ExchangeRequest × Ledger × List CreditHistoryEntry) → Option Int
  | .ok (e, _, _) => some e.creditAmount
  | .error _ => none

/-- Projection to the stored loyaltyPointsSuccess flag of a successful
credit assignment. -/
def okLedgerFlag :
    Except Err (ExchangeRequest × Ledger × List CreditHistoryEntry) →
      Option (Option Bool)
  | .ok (e, _, _) => some e.loyaltyPointsSuccess
  | .error _ => none

/-- Approved request with an assigned credit, used as a fixture. -/
def exApprovedCredit : ExchangeRequest :=
  { exBase with status := .approved, creditAmount := 250 }

/-- Store fixture holding the baseline pending request under id e1 and the
warehouse fixture under id w1. -/
def sysBase : System :=
  { exchanges := fun i => if i = "e1" then some exBase else none
    warehouses := whsBase }

/-- Entity produced by a successful admin approval: the status flip, the
feedback append, the warehouse snapshot and the updatedAt refresh. -/
def approvedEntity (ex : ExchangeRequest) (fb : Option String) (wid : String)
    (w : Warehouse) (now : Nat) : ExchangeRequest :=
  { ex with
    status := .approved
    adminFeedback :=
      if optTruthy fb then appendFeedback ex.adminFeedback (fb.getD "")
      else ex.adminFeedback
    updatedAt := now
    warehouseId := some wid
    warehouseInfo := some (snapshotOf w) }

/-- Payload attempting to overwrite every field the generic owner update
protects. -/
def pEvil : UpdatePayload :=
  { status := some .completed
    creditAmount := some 999
    adminFeedback := some "hax"
    userId := some "mallory"
    userEmail := some "m@x.test"
    transitStatus := some (some .received)
    productName := some "New name" }

/-- Result of applying the protected-field payload to the base fixture:
only the unprotected field and updatedAt change. -/
def exFrameOut : ExchangeRequest :=
  { exBase with productName := "New name", updatedAt := 9 }

/-- List fixtures sharing one createdAt value (a tie). -/
def exTieA : ExchangeRequest := { exBase with productName := "A", createdAt := 5 }

/-- Second element of the tie, distinguishable from the first. -/
def exTieB : ExchangeRequest := { exBase with productName := "B", createdAt := 5 }

/-- List fixture with the later creation time. -/
def exNewer : ExchangeRequest := { exBase with productName := "N", createdAt := 9 }

/-- List fixture with the earlier creation time. -/
def exOlder : ExchangeRequest := { exBase with productName := "O", createdAt := 3 }

/-- Rounding an integer-valued number is the identity. -/
theorem jsRound_ofInt (n : Int) : jsRound (.ofInt n) = n := by
  show (2 * n + ((1 : Nat) : Int)) / (2 * ((1 : Nat) : Int)) = n
  norm_num
  omega


/-- Claim C1 (amended): when the status of an exchange request is declined
or completed, owner cancel, owner submit-shipping, admin approve, admin
complete (generic set-status), every admin set-transit and admin
assign-credit fail with an error, returning before any store write, so the
entity is unchanged.  The admin decline transition however has no status
guard in the source: it succeeds from any status, including the terminal
ones, rather than returning a ConflictError. -/
theorem terminal_blocks_all_but_decline (ex : ExchangeRequest)
    (h : ex.status = .declined ∨ ex.status = .completed) :
    (∀ uid, isErr (cancel ex uid) = true) ∧
    (∀ uid c t d a nts now, isErr (submitShipping ex uid c t d a nts now) = true) ∧
    (∀ fb whId whs now, isErr (setStatus ex .approved fb whId whs now) = true) ∧
    (∀ fb whId whs now, isErr (setStatus ex .completed fb whId whs now) = true) ∧
    (∀ req note now, isErr (setTransit ex req note now) = true) ∧
    (∀ exId amt fb adminUid led hist lf wf now,
      isErr (assignCredit ex exId amt fb adminUid led hist lf wf now) = true) ∧
    (∀ fb whId whs now,
      okStatus (setStatus ex .declined fb whId whs now) = some .declined) := by
  have hnp : ex.status ≠ .pending := by rcases h with h | h <;> simp [h]
  have hna : ex.status ≠ .approved := by rcases h with h | h <;> simp [h]
  refine ⟨fun uid => ?_, fun uid c t d a nts now => ?_, fun fb whId whs now => ?_,
    fun fb whId whs now => ?_, fun req note now => ?_,
    fun exId amt fb adminUid led hist lf wf now => ?_, fun fb whId whs now => ?_⟩
  · unfold cancel
    split <;> first | rfl | simp_all
  · unfold submitShipping
    split <;> first | rfl | (simp_all; split <;> rfl)
  · unfold setStatus
    rw [if_pos ⟨rfl, hnp⟩]; rfl
  · unfold setStatus
    rw [if_neg (by simp), if_pos ⟨rfl, hna⟩]; rfl
  · unfold setTransit
    rw [if_pos hna]; rfl
  · unfold assignCredit
    cases amt with
    | none => rfl
    | some f =>
      simp only
      split
      · rfl
      · rw [if_pos (Or.inl hna)]; rfl
  · unfold setStatus
    rw [if_neg (by simp), if_neg (by simp), if_neg (by simp), if_neg (by simp)]
    rfl

/-- Claim C1 witness: the terminal-state theorem applied to the completed
fixture. -/
theorem terminal_blocks_witness :
    isErr (cancel exCompleted "user1") = true ∧
    isErr (setTransit exCompleted .received none 7) = true ∧
    okStatus (setStatus exCompleted .declined none none whsBase 7) = some .declined := by
  have h := terminal_blocks_all_but_decline exCompleted (Or.inr rfl)
  exact ⟨h.1 "user1", h.2.2.2.2.1 .received none 7, h.2.2.2.2.2.2 none none whsBase 7⟩

/-- Claim C1 counterexample: admin decline of a completed exchange request
does not return a ConflictError; it succeeds and changes the entity. -/
theorem decline_unguarded_counterexample :
    isConflict (setStatus exCompleted .declined none none whsBase 7) = false ∧
    okStatus (setStatus exCompleted .declined none none whsBase 7) = some .declined ∧
    okEntity (setStatus exCompleted .declined none none whsBase 7) ≠ some exCompleted := by
  refine ⟨rfl, rfl, ?_⟩
  decide

/-- Claim C2 (amended): assign-credit first rounds the requested amount to
the nearest integer; it is rejected with a ValidationError (before any
state change) exactly when the amount is NaN or its rounded value is not
positive, and with a valid rounded amount it is rejected with a
ConflictError (no state change) unless the status is approved and the
transit status is received.  A non-integer amount whose rounded value is
positive is therefore accepted, not rejected. -/
theorem assign_credit_guards (ex : ExchangeRequest) (exId : String)
    (fb : Option String) (adminUid : String) (led : Ledger)
    (hist : List CreditHistoryEntry) (lf wf : Bool) (now : Nat) :
    (isValidation (assignCredit ex exId none fb adminUid led hist lf wf now) = true) ∧
    (∀ f : Fraction, jsRound f ≤ 0 →
      isValidation (assignCredit ex exId (some f) fb adminUid led hist lf wf now) = true) ∧
    (∀ f : Fraction, 0 < jsRound f →
      ex.status ≠ .approved ∨ ex.transitStatus ≠ some .received →
      isConflict (assignCredit ex exId (some f) fb adminUid led hist lf wf now) = true) := by
  refine ⟨rfl, fun f hf => ?_, fun f hf hg => ?_⟩
  · unfold assignCredit
    simp only
    rw [if_pos hf]
    rfl
  · unfold assignCredit
    simp only
    rw [if_neg (by omega), if_pos hg]
    rfl

/-- Claim C2 witness: the guard theorem applied to a pending fixture and a
non-positive amount. -/
theorem assign_credit_guards_witness :
    isValidation (assignCredit exBase "e1" (some ⟨0, 1⟩) none "adm" ledBase [] false false 9) = true ∧
    isConflict (assignCredit exBase "e1" (some ⟨40, 1⟩) none "adm" ledBase [] false false 9) = true := by
  have h := assign_credit_guards exBase "e1" none "adm" ledBase [] false false 9
  exact ⟨h.2.1 ⟨0, 1⟩ (by decide), h.2.2 ⟨40, 1⟩ (by decide) (Or.inl (by decide))⟩

/-- Claim C2 counterexample: the non-integer positive amount 1500.5 is not
rejected with a ValidationError; it is rounded to 1501 and the assignment
succeeds on an approved and received request. -/
theorem assign_credit_rounds_counterexample :
    jsRound ⟨3001, 2⟩ = 1501 ∧
    isValidation (assignCredit exReceived "e1" (some ⟨3001, 2⟩) none "adm" ledBase [] false false 9) = false ∧
    okCreditAmount (assignCredit exReceived "e1" (some ⟨3001, 2⟩) none "adm" ledBase [] false false 9) = some 1501 := by
  refine ⟨by decide, rfl, ?_⟩
  decide

/-- Claim C3 (amended): when the external ledger write fails during admin
assign-credit, the handler aborts with an internal (HTTP 500) error before
any local write, so the local entity is not updated; consequently every
successful assignment stores loyaltyPointsSuccess as true, and the value
false is never recorded. -/
theorem ledger_write_failure_aborts (ex : ExchangeRequest) (exId : String)
    (amount : Option Fraction) (fb : Option String) (adminUid : String)
    (led : Ledger) (hist : List CreditHistoryEntry) (lf : Bool) (now : Nat) :
    (isErr (assignCredit ex exId amount fb adminUid led hist lf true now) = true) ∧
    (∀ wf, okLedgerFlag (assignCredit ex exId amount fb adminUid led hist lf wf now) ≠
      some (some false)) := by
  constructor
  · unfold assignCredit
    cases amount with
    | none => rfl
    | some f =>
      simp only
      split
      · rfl
      · split
        · rfl
        · split
          · rfl
          · split
            · rfl
            · rfl
  · intro wf
    unfold assignCredit
    cases amount with
    | none => simp [okLedgerFlag]
    | some f =>
      simp only
      split
      · simp [okLedgerFlag]
      · split
        · simp [okLedgerFlag]
        · split
          · simp [okLedgerFlag]
          · split
            · simp [okLedgerFlag]
            · split
              · simp [okLedgerFlag]
              · simp [okLedgerFlag]

/-- Claim C3 witness: the abort theorem applied to an eligible request with
a failing ledger write. -/
theorem ledger_write_failure_witness :
    isErr (assignCredit exReceived "e1" (some (.ofInt 1500)) none "adm" ledBase [] false true 9) = true ∧
    okLedgerFlag (assignCredit exReceived "e1" (some (.ofInt 1500)) none "adm" ledBase [] false false 9) ≠
      some (some false) := by
  have h := ledger_write_failure_aborts exReceived "e1" (some (.ofInt 1500)) none "adm" ledBase [] false 9
  exact ⟨h.1, h.2 false⟩

/-- Claim C3 counterexample: with an eligible request and a valid amount,
a failing ledger write makes the handler return an internal error rather
than a degraded success, and no entity is returned at all. -/
theorem ledger_write_failure_counterexample :
    isInternal (assignCredit exReceived "e1" (some (.ofInt 1500)) none "adm" ledBase [] false true 9) = true ∧
    okLedgerFlag (assignCredit exReceived "e1" (some (.ofInt 1500)) none "adm" ledBase [] false true 9) = none := by
  exact ⟨by decide, by decide⟩

/-- Claim C4: with an approved and received request, a resolvable ledger
customer and an existing balance b, assign-credit of a positive integer
amount n is additive: the ledger balance becomes b plus n, the entity
records creditAmount n and totalLoyaltyPoints b plus n, and exactly one
credit history entry with amount n is appended to the history. -/
theorem assign_credit_additive (ex : ExchangeRequest) (exId : String)
    (fb : Option String) (adminUid : String) (led : Ledger)
    (hist : List CreditHistoryEntry) (n b : Int) (cid : String) (now : Nat)
    (hs : ex.status = .approved) (ht : ex.transitStatus = some .received)
    (hc : led.customers ex.userEmail = some cid) (hb : led.points cid = some b)
    (hn : 0 < n) :
    ∃ ex2 led2 e,
      assignCredit ex exId (some (.ofInt n)) fb adminUid led hist false false now =
        .ok (ex2, led2, hist ++ [e]) ∧
      led2.points cid = some (b + n) ∧
      ex2.creditAmount = n ∧
      ex2.totalLoyaltyPoints = b + n ∧
      e.amount = n := by
  unfold assignCredit
  simp only [jsRound_ofInt]
  rw [if_neg (by omega), if_neg (by simp [hs, ht]), if_neg (by simp), hc]
  simp only [updateLoyaltyPoints, hb, Option.getD_some]
  rw [if_neg (by simp)]
  exact ⟨_, _, _, rfl, by simp, rfl, rfl, rfl⟩

/-- Claim C4 witness: the additivity theorem at amount 1500 against a
ledger balance of 3000, yielding balance 4500. -/
theorem assign_credit_additive_witness :
    ∃ ex2 led2 e,
      assignCredit exReceived "e1" (some (.ofInt 1500)) none "adm" ledBase [] false false 9 =
        .ok (ex2, led2, [] ++ [e]) ∧
      led2.points "cust1" = some (3000 + 1500) ∧
      ex2.creditAmount = 1500 ∧
      ex2.totalLoyaltyPoints = 3000 + 1500 ∧
      e.amount = 1500 :=
  assign_credit_additive exReceived "e1" none "adm" ledBase [] 1500 3000 "cust1" 9
    rfl rfl (by decide) (by decide) (by decide)

/-- Claim C5: admin set-transit to completed on an approved exchange
request fails with a ConflictError (no state change) whenever creditAmount
is not positive; with a positive creditAmount it succeeds, sets
transitStatus to completed and as a combined side effect also sets status
to completed. -/
theorem transit_completed_requires_credit (ex : ExchangeRequest)
    (note : Option String) (now : Nat) (h : ex.status = .approved) :
    (ex.creditAmount ≤ 0 → isConflict (setTransit ex .completed note now) = true) ∧
    (0 < ex.creditAmount →
      ∃ ex2, setTransit ex .completed note now = .ok ex2 ∧
        ex2.transitStatus = some .completed ∧ ex2.status = .completed) := by
  constructor
  · intro hc
    unfold setTransit
    rw [if_neg (by simp [h]), if_neg (by simp), if_neg (by simp), if_pos ⟨rfl, hc⟩]
    rfl
  · intro hc
    unfold setTransit
    rw [if_neg (by simp [h]), if_neg (by simp), if_neg (by simp),
      if_neg (fun hh => absurd hh.2 (by omega))]
    exact ⟨_, rfl, rfl, rfl⟩

/-- Claim C5 witness: completing the transit of an approved request with
creditAmount 250. -/
theorem transit_completed_witness :
    ∃ ex2, setTransit exApprovedCredit .completed none 8 = .ok ex2 ∧
      ex2.transitStatus = some .completed ∧ ex2.status = .completed :=
  (transit_completed_requires_credit exApprovedCredit none 8 rfl).2 (by decide)

/-- Claim C7: owner submit-shipping is rejected with a ValidationError when
the carrier, tracking number or shipping date is missing or empty; with all
three present it succeeds exactly when the request is approved
(ConflictError otherwise, with no state change on any failure), and on
success it sets transitStatus to shipping and stores the submitted carrier,
tracking number, shipping date and address in shippingDetails. -/
theorem submit_shipping_spec (ex : ExchangeRequest) (uid : String)
    (c t d a nts : Option String) (now : Nat) (hu : ex.userId = uid) :
    (optTruthy c = false ∨ optTruthy t = false ∨ optTruthy d = false →
      isValidation (submitShipping ex uid c t d a nts now) = true) ∧
    (optTruthy c = true → optTruthy t = true → optTruthy d = true →
      ex.status ≠ .approved →
      isConflict (submitShipping ex uid c t d a nts now) = true) ∧
    (optTruthy c = true → optTruthy t = true → optTruthy d = true →
      ex.status = .approved →
      ∃ ex2, submitShipping ex uid c t d a nts now = .ok ex2 ∧
        ex2.transitStatus = some .shipping ∧
        ex2.shippingDetails = some {
          carrierName := c.getD ""
          trackingNumber := t.getD ""
          shippingDate := ⟨d.getD ""⟩
          address := a.getD ""
          notes := nts.getD ""
          submittedAt := now }) := by
  refine ⟨fun hv => ?_, fun h1 h2 h3 hna => ?_, fun h1 h2 h3 ha => ?_⟩
  · unfold submitShipping
    rw [if_pos hv]
    rfl
  · unfold submitShipping
    rw [if_neg (by simp [h1, h2, h3]), if_neg (by simp [hu]), if_pos hna]
    rfl
  · unfold submitShipping
    rw [if_neg (by simp [h1, h2, h3]), if_neg (by simp [hu]),
      if_neg (by simp [ha])]
    exact ⟨_, rfl, rfl, rfl⟩

/-- Claim C7 witness: submitting complete shipping details on an approved
request. -/
theorem submit_shipping_witness :
    ∃ ex2,
      submitShipping exApproved "user1" (some "DHL") (some "TRK1")
        (some "2024-01-02") (some "12 Lane") none 11 = .ok ex2 ∧
      ex2.transitStatus = some .shipping ∧
      ex2.shippingDetails = some {
        carrierName := (some "DHL").getD ""
        trackingNumber := (some "TRK1").getD ""
        shippingDate := ⟨(some "2024-01-02").getD ""⟩
        address := (some "12 Lane").getD ""
        notes := (none : Option String).getD ""
        submittedAt := 11 } :=
  (submit_shipping_spec exApproved "user1" (some "DHL") (some "TRK1")
    (some "2024-01-02") (some "12 Lane") none 11 rfl).2.2
    (by decide) (by decide) (by decide) rfl

/-- Claim C8: owner cancel succeeds exactly when the request is pending and
the actor is the owner, deleting the entity from the store; a pending check
failure returns a ConflictError and a non-owner actor gets a
ForbiddenError, in both cases without touching the store. -/
theorem cancel_spec (sys : System) (exId uid : String) (ex : ExchangeRequest)
    (hex : sys.exchanges exId = some ex) :
    (ex.userId = uid → ex.status = .pending →
      ∃ sys2, sysCancel sys exId uid = .ok sys2 ∧ sys2.exchanges exId = none) ∧
    (ex.userId = uid → ex.status ≠ .pending →
      isConflict (sysCancel sys exId uid) = true) ∧
    (ex.userId ≠ uid → isForbidden (sysCancel sys exId uid) = true) := by
  refine ⟨fun ho hp => ?_, fun ho hp => ?_, fun ho => ?_⟩
  · unfold sysCancel
    rw [hex]
    dsimp only
    unfold cancel
    rw [if_neg (by simp [ho]), if_neg (by simp [hp])]
    exact ⟨_, rfl, by simp⟩
  · unfold sysCancel
    rw [hex]
    dsimp only
    unfold cancel
    rw [if_neg (by simp [ho]), if_pos hp]
    rfl
  · unfold sysCancel
    rw [hex]
    dsimp only
    unfold cancel
    rw [if_pos ho]
    rfl

/-- Claim C8 witness: cancelling the pending fixture as its owner deletes
it; a foreign actor is rejected. -/
theorem cancel_spec_witness :
    (∃ sys2, sysCancel sysBase "e1" "user1" = .ok sys2 ∧
      sys2.exchanges "e1" = none) ∧
    isForbidden (sysCancel sysBase "e1" "mallory") = true := by
  have h1 := cancel_spec sysBase "e1" "user1" exBase (by decide)
  have h2 := cancel_spec sysBase "e1" "mallory" exBase (by decide)
  exact ⟨h1.1 rfl rfl, h2.2.2 (by decide)⟩

/-- Claim C6: admin approve of a pending exchange request requires a
warehouseId (ValidationError when absent, NotFoundError when it resolves to
no warehouse record, with no state change in either case); on success the
stored warehouseInfo snapshot equals the warehouse record fields at
approval time, and subsequent updates or deletes of that warehouse record
leave the exchange request, and hence its snapshot, unchanged. -/
theorem approve_snapshot (sys : System) (exId : String) (ex : ExchangeRequest)
    (fb : Option String) (now : Nat)
    (hex : sys.exchanges exId = some ex) (hp : ex.status = .pending) :
    (∀ whid, optTruthy whid = false →
      isValidation (sysSetStatus sys exId .approved fb whid now) = true) ∧
    (∀ wid, wid ≠ "" → sys.warehouses wid = none →
      isNotFound (sysSetStatus sys exId .approved fb (some wid) now) = true) ∧
    (∀ wid w, wid ≠ "" → sys.warehouses wid = some w →
      ∃ sys2 ex2,
        sysSetStatus sys exId .approved fb (some wid) now = .ok sys2 ∧
        sys2.exchanges exId = some ex2 ∧
        ex2.status = .approved ∧
        ex2.warehouseInfo = some (snapshotOf w) ∧
        (∀ p now2 sys3, sysWarehouseUpdate sys2 wid p now2 = .ok sys3 →
          sys3.exchanges exId = some ex2) ∧
        (∀ sys3, sysWarehouseDelete sys2 wid = .ok sys3 →
          sys3.exchanges exId = some ex2)) := by
  refine ⟨fun whid hfal => ?_, fun wid hne hw => ?_, fun wid w hne hw => ?_⟩
  · unfold sysSetStatus
    rw [hex]
    dsimp only
    unfold setStatus
    rw [if_neg (by simp [hp]), if_neg (by simp), if_neg (by simp), if_pos ⟨rfl, hfal⟩]
    rfl
  · unfold sysSetStatus
    rw [hex]
    dsimp only
    unfold setStatus
    rw [if_neg (by simp [hp]), if_neg (by simp), if_neg (by simp),
      if_neg (by simp [optTruthy, hne])]
    dsimp only
    rw [hw]
    rfl
  · unfold sysSetStatus
    rw [hex]
    dsimp only
    unfold setStatus
    rw [if_neg (by simp [hp]), if_neg (by simp), if_neg (by simp),
      if_neg (by simp [optTruthy, hne])]
    dsimp only
    rw [hw]
    dsimp only [Except.map, putExchange]
    refine ⟨putExchange sys exId (approvedEntity ex fb wid w now),
      approvedEntity ex fb wid w now, rfl, ?_, rfl, rfl, ?_, ?_⟩
    · dsimp only [putExchange]
      rw [if_pos rfl]
    · intro p now2 sys3 hup
      unfold sysWarehouseUpdate at hup
      dsimp only [putExchange] at hup
      rw [hw] at hup
      dsimp only at hup
      injection hup with h
      subst h
      dsimp only
      rw [if_pos rfl]
    · intro sys3 hdel
      unfold sysWarehouseDelete at hdel
      dsimp only [putExchange] at hdel
      rw [hw] at hdel
      dsimp only at hdel
      injection hdel with h
      subst h
      dsimp only
      rw [if_pos rfl]

/-- Claim C6 witness: approving the pending fixture against the warehouse
fixture under id w1. -/
theorem approve_snapshot_witness :
    ∃ sys2 ex2,
      sysSetStatus sysBase "e1" .approved none (some "w1") 6 = .ok sys2 ∧
      sys2.exchanges "e1" = some ex2 ∧
      ex2.status = .approved ∧
      ex2.warehouseInfo = some (snapshotOf whBase) ∧
      (∀ p now2 sys3, sysWarehouseUpdate sys2 "w1" p now2 = .ok sys3 →
        sys3.exchanges "e1" = some ex2) ∧
      (∀ sys3, sysWarehouseDelete sys2 "w1" = .ok sys3 →
        sys3.exchanges "e1" = some ex2) :=
  (approve_snapshot sysBase "e1" exBase none 6 (by decide) rfl).2.2 "w1" whBase
    (by decide) (by decide)

/-- Claim C9: for every payload given to the generic owner update, a
successful update leaves status, creditAmount, adminFeedback, userId and
userEmail unchanged (the payload copies of these keys are deleted before
the merge), and transitStatus either stays unchanged or becomes shipping,
the latter only when the payload includes shippingDetails and the request
is approved. -/
theorem owner_update_frame (ex : ExchangeRequest) (uid : String)
    (p : UpdatePayload) (now : Nat) (ex2 : ExchangeRequest)
    (hok : ownerUpdate ex uid p now = .ok ex2) :
    ex2.status = ex.status ∧ ex2.creditAmount = ex.creditAmount ∧
    ex2.adminFeedback = ex.adminFeedback ∧ ex2.userId = ex.userId ∧
    ex2.userEmail = ex.userEmail ∧
    (ex2.transitStatus = ex.transitStatus ∨
      (ex2.transitStatus = some .shipping ∧ p.shippingDetails.isSome = true ∧
        ex.status = .approved)) := by
  unfold ownerUpdate at hok
  split at hok
  · cases hok
  · split at hok
    · cases hok
    · next hg2 =>
      injection hok with h
      subst h
      by_cases hps : p.shippingDetails.isSome = true
      · have ha : ex.status = .approved := by
          by_contra hcon
          exact hg2 ⟨hps, hcon⟩
        rw [if_pos hps]
        exact ⟨rfl, rfl, rfl, rfl, rfl, Or.inr ⟨rfl, hps, ha⟩⟩
      · rw [if_neg hps]
        exact ⟨rfl, rfl, rfl, rfl, rfl, Or.inl rfl⟩

/-- Claim C9 witness: a payload that tries to overwrite every protected
field changes none of them. -/
theorem owner_update_frame_witness :
    exFrameOut.status = exBase.status ∧
    exFrameOut.creditAmount = exBase.creditAmount ∧
    exFrameOut.adminFeedback = exBase.adminFeedback ∧
    exFrameOut.userId = exBase.userId ∧
    exFrameOut.userEmail = exBase.userEmail ∧
    (exFrameOut.transitStatus = exBase.transitStatus ∨
      (exFrameOut.transitStatus = some .shipping ∧
        pEvil.shippingDetails.isSome = true ∧ exBase.status = .approved)) :=
  owner_update_frame exBase "user1" pEvil 9 exFrameOut rfl

/-- Claim C10 (amended): the client-side fallback path of list-by-owner
always returns a sequence sorted by createdAt descending, and whenever the
createdAt values of the matching documents are pairwise distinct the
indexed (order-by) path and the fallback path return the same sequence.
With tied createdAt values the two paths may order the tie differently, as
the contract of the ordered query does not fix the order of ties. -/
theorem list_paths_agree (uid : String) (docs out fetch : List ExchangeRequest)
    (hidx : indexedResult uid docs out)
    (hf : fetch.Perm (docs.filter (matchesOwner uid))) :
    List.Sorted createdDesc (clientSort fetch) ∧
    ((docs.filter (matchesOwner uid)).Pairwise
        (fun a b => a.createdAt ≠ b.createdAt) →
      out = clientSort fetch) := by
  have hsort : List.Sorted createdDesc (clientSort fetch) :=
    List.sorted_insertionSort createdDesc fetch
  refine ⟨hsort, fun hdist => ?_⟩
  have hcperm : (clientSort fetch).Perm (docs.filter (matchesOwner uid)) :=
    (List.perm_insertionSort createdDesc fetch).trans hf
  have hperm : out.Perm (clientSort fetch) := hidx.1.trans hcperm.symm
  have hsymm : ∀ {a b : ExchangeRequest},
      a.createdAt ≠ b.createdAt → b.createdAt ≠ a.createdAt :=
    fun h => Ne.symm h
  have hd_out : out.Pairwise (fun a b => a.createdAt ≠ b.createdAt) :=
    (hidx.1.pairwise_iff hsymm).mpr hdist
  have hd_cs : (clientSort fetch).Pairwise (fun a b => a.createdAt ≠ b.createdAt) :=
    (hcperm.pairwise_iff hsymm).mpr hdist
  have hstrict : ∀ l : List ExchangeRequest, List.Sorted createdDesc l →
      l.Pairwise (fun a b => a.createdAt ≠ b.createdAt) →
      l.Pairwise (fun a b => b.createdAt < a.createdAt) := by
    intro l hs hd
    exact (hs.and hd).imp fun hab => lt_of_le_of_ne hab.1 (Ne.symm hab.2)
  haveI : IsAntisymm ExchangeRequest (fun a b => b.createdAt < a.createdAt) :=
    ⟨fun a b h1 h2 => absurd h2 (Nat.lt_asymm h1)⟩
  exact List.eq_of_perm_of_sorted hperm
    (hstrict out hidx.2 hd_out) (hstrict _ hsort hd_cs)

/-- Claim C10 witness: with distinct createdAt values both paths agree on
the descending order. -/
theorem list_paths_agree_witness :
    List.Sorted createdDesc (clientSort [exOlder, exNewer]) ∧
    [exNewer, exOlder] = clientSort [exOlder, exNewer] := by
  have h := list_paths_agree "user1" [exNewer, exOlder] [exNewer, exOlder]
    [exOlder, exNewer] ⟨by decide, by decide⟩ (by decide)
  exact ⟨h.1, h.2 (by decide)⟩

/-- Claim C10 counterexample: with two documents sharing one createdAt
value, the ordered-query contract admits the reversed pair while the
client-side stable sort keeps the fetched order, so the two paths need not
return the same sequence. -/
theorem list_paths_tie_counterexample :
    indexedResult "user1" [exTieA, exTieB] [exTieB, exTieA] ∧
    [exTieB, exTieA] ≠ clientSort [exTieA, exTieB] := by
  refine ⟨⟨by decide, by decide⟩, by decide⟩

end SwapCred
